import Mathlib

/-!
Verification of the portfolio valuation/recalculation engine of the
Portfolio-Management-Web-Application repository.

The embedding translates the TypeScript sources into Lean:

* `src/services/transaction.ts` (current engine, with mutual-fund and stock
  support): `getPortfolioStats`, `getMutualFundUnits`, `getStockUnits`,
  `updatePortfolioStats`, and the ledger mutations `createTransaction`,
  `updateTransaction`, `deleteTransaction`.
* `src/services/portfolio.ts`: `portfolioService.updatePortfolioStats`
  (the snapshot write), `updateNav`, `updateStockPrice`.
* `src/pages/Dashboard.tsx`: `handleNavUpdate`, `handleStockPriceUpdate`.
* `src/components/AddTransactionModal.tsx`: `handleSubmit` (construction of
  a transaction input from the form).
* The legacy stats recomputation (the older `transaction.ts` without stock
  support) is embedded separately as `updatePortfolioStatsLegacy`.

Numbers: all money/unit arithmetic in the source is JavaScript floating
point with no explicit rounding; the embedding idealises it as exact
rational arithmetic (`ℚ`), per the spec's numeric-semantics section.
Firestore document updates (`updateDoc`) are atomic: a throwing update
writes nothing, which the embedding reflects by returning the unchanged
store alongside the error.
-/

namespace PortfolioApp

/-- The `type` field of a transaction: 'deposit' | 'withdrawal'. -/
inductive TransactionType where
  | deposit
  | withdrawal
deriving DecidableEq, Repr

/-- The `investmentType` of a portfolio: the five enumerated categories. -/
inductive InvestmentType where
  | cooperative
  | pvd
  | mutual_fund
  | stock
  | savings
deriving DecidableEq, Repr

/-- The `mutualFundDetails` payload of a transaction (src/types, used by the
engine only through `unitsPurchased`). -/
structure MutualFundDetails where
  fundName : String
  installmentNo : Int
  unitsPurchased : ℚ
  pricePerUnit : ℚ
deriving DecidableEq, Repr

/-- The `stockDetails` payload of a transaction. -/
structure StockDetails where
  stockName : String
  installmentNo : Int
  unitsPurchased : ℚ
  pricePerUnitUSD : ℚ
  exchangeRate : ℚ
  purchaseValueTHB : ℚ
deriving DecidableEq, Repr

/-- The `pvdDetails` payload (never read by the valuation engine). -/
structure PvdDetails where
  year : Int
  period : Int
  month : String
  employeeContribution : ℚ
  employerContribution : ℚ
deriving DecidableEq, Repr

/-- The `cooperativeDetails` payload (never read by the valuation engine). -/
structure CooperativeDetails where
  year : Int
  period : Int
  month : String
  totalInvestedToDate : ℚ
deriving DecidableEq, Repr

/-- A transaction document in the `transactions` collection.  `date` is the
Firestore timestamp in milliseconds. -/
structure Transaction where
  id : String
  userId : String
  portfolioId : String
  type : TransactionType
  amount : ℚ
  date : Int
  notes : String
  mutualFundDetails : Option MutualFundDetails := none
  stockDetails : Option StockDetails := none
  pvdDetails : Option PvdDetails := none
  cooperativeDetails : Option CooperativeDetails := none
deriving DecidableEq, Repr

/-- A portfolio document.  `getPortfolio` coerces a missing NAV / stock
price / exchange rate to 0 (`data.currentNavPerUnit || 0` etc.), so the
quote fields are plain rationals with 0 meaning "never entered". -/
structure Portfolio where
  id : String
  userId : String
  name : String
  investmentType : InvestmentType
  targetAmount : ℚ
  currentValue : ℚ
  totalInvested : ℚ
  totalReturn : ℚ
  returnPercentage : ℚ
  transactionCount : Nat
  totalUnits : ℚ
  currentNavPerUnit : ℚ
  currentStockPriceUSD : ℚ
  currentExchangeRate : ℚ
deriving DecidableEq, Repr

/-- The persisted state visible to the engine: the `portfolios` and
`transactions` collections. -/
structure Store where
  portfolios : List Portfolio
  transactions : List Transaction
deriving DecidableEq, Repr

/-- Embeds `portfolioService.getPortfolio`: fetch the portfolio document by id
(`none` models a non-existent document). -/
def findPortfolio (s : Store) (pid : String) : Option Portfolio :=
  s.portfolios.find? (fun p => p.id == pid)

/-- Embeds `transactionService.getPortfolioTransactions`: the query
`where('portfolioId', '==', portfolioId)`.  The subsequent in-memory sort
by date (display order) does not change the set; the stats folds below are
proved order-independent where the spec claims it. -/
def ledgerOf (s : Store) (pid : String) : List Transaction :=
  s.transactions.filter (fun t => t.portfolioId == pid)

/-- Result record of `getPortfolioStats` (`TransactionStats`). -/
structure TransactionStats where
  totalDeposits : ℚ
  totalWithdrawals : ℚ
  netInvested : ℚ
  transactionCount : Nat
deriving DecidableEq, Repr

/-- Loop body of `getPortfolioStats`: accumulate `(totalDeposits,
totalWithdrawals)` over one transaction. -/
def statsAccum (acc : ℚ × ℚ) (t : Transaction) : ℚ × ℚ :=
  match t.type with
  | .deposit => (acc.1 + t.amount, acc.2)
  | .withdrawal => (acc.1, acc.2 + t.amount)

/-- Embeds `transactionService.getPortfolioStats`, applied to an already fetched
transaction list: forEach-accumulate deposits and withdrawals, then return
the stats record. -/
def getPortfolioStats (txs : List Transaction) : TransactionStats :=
  let acc := txs.foldl statsAccum (0, 0)
  { totalDeposits := acc.1
    totalWithdrawals := acc.2
    netInvested := acc.1 - acc.2
    transactionCount := txs.length }

/-- Loop body of `getMutualFundUnits`: add `unitsPurchased` on deposit,
subtract on withdrawal, skip transactions without `mutualFundDetails`. -/
def mfUnitsAccum (u : ℚ) (t : Transaction) : ℚ :=
  match t.mutualFundDetails with
  | some d =>
    match t.type with
    | .deposit => u + d.unitsPurchased
    | .withdrawal => u - d.unitsPurchased
  | none => u

/-- Embeds `transactionService.getMutualFundUnits` on a fetched list. -/
def getMutualFundUnits (txs : List Transaction) : ℚ :=
  txs.foldl mfUnitsAccum 0

/-- Loop body of `getStockUnits`. -/
def stockUnitsAccum (u : ℚ) (t : Transaction) : ℚ :=
  match t.stockDetails with
  | some d =>
    match t.type with
    | .deposit => u + d.unitsPurchased
    | .withdrawal => u - d.unitsPurchased
  | none => u

/-- Embeds `transactionService.getStockUnits` on a fetched list. -/
def getStockUnits (txs : List Transaction) : ℚ :=
  txs.foldl stockUnitsAccum 0

/-- The six snapshot fields written by `updatePortfolioStats`. -/
structure Snapshot where
  currentValue : ℚ
  totalInvested : ℚ
  totalReturn : ℚ
  returnPercentage : ℚ
  transactionCount : Nat
  totalUnits : ℚ
deriving DecidableEq, Repr

/-- The compute step of `transactionService.updatePortfolioStats` (current
engine): branch on `investmentType`, derive `currentValue`/`totalUnits`,
then the derived metrics.  The quote guards mirror the JavaScript
truthiness tests `x && x > 0` (and for stock `p && p > 0 && e && e > 0`). -/
def computeSnapshot (ity : InvestmentType) (nav priceUSD fx : ℚ)
    (txs : List Transaction) : Snapshot :=
  let stats := getPortfolioStats txs
  let cvU : ℚ × ℚ :=
    match ity with
    | .mutual_fund =>
      let u := getMutualFundUnits txs
      if nav ≠ 0 ∧ 0 < nav then (u * nav, u) else (stats.netInvested, u)
    | .stock =>
      let u := getStockUnits txs
      if priceUSD ≠ 0 ∧ 0 < priceUSD ∧ fx ≠ 0 ∧ 0 < fx then
        (u * priceUSD * fx, u)
      else (stats.netInvested, u)
    | _ => (stats.netInvested, 0)
  let currentValue := cvU.1
  let totalUnits := cvU.2
  let totalReturn := currentValue - stats.netInvested
  let returnPercentage :=
    if 0 < stats.netInvested then totalReturn / stats.netInvested * 100 else 0
  { currentValue
    totalInvested := stats.netInvested
    totalReturn
    returnPercentage
    transactionCount := stats.transactionCount
    totalUnits }

/-- Write-back of a computed snapshot onto a portfolio document:
`portfolioService.updatePortfolioStats` spreads all six stats fields into
`updateDoc`, replacing each of them and touching nothing else. -/
def applySnapshot (p : Portfolio) (snap : Snapshot) : Portfolio :=
  { p with
    currentValue := snap.currentValue
    totalInvested := snap.totalInvested
    totalReturn := snap.totalReturn
    returnPercentage := snap.returnPercentage
    transactionCount := snap.transactionCount
    totalUnits := snap.totalUnits }

/-- The store after `portfolioService.updatePortfolioStats(pid, snap)`. -/
def writeStats (s : Store) (pid : String) (snap : Snapshot) : Store :=
  { s with
    portfolios :=
      s.portfolios.map (fun p => if p.id == pid then applySnapshot p snap else p) }

/-- A point in the {ledger read, portfolio read, snapshot write} sequence
at which the persistence layer may throw. -/
inductive FaultStep where
  | readLedger
  | readPortfolio
  | writeSnap
deriving DecidableEq, Repr

/-- Embeds `transactionService.updatePortfolioStats` (current engine) with an
optional injected persistence fault.  The result pairs the resulting store
with the outcome: every error exit happens before the single atomic
`updateDoc` write, and a throwing `updateDoc` writes nothing, so on error
the store is returned unchanged. -/
def updatePortfolioStatsWith (fault : Option FaultStep) (s : Store)
    (pid : String) : Store × Except String Unit :=
  if fault = some .readLedger then (s, .error "ledger read failed") else
  if fault = some .readPortfolio then (s, .error "portfolio read failed") else
  match findPortfolio s pid with
  | none => (s, .error "Portfolio not found")
  | some p =>
    let snap := computeSnapshot p.investmentType p.currentNavPerUnit
      p.currentStockPriceUSD p.currentExchangeRate (ledgerOf s pid)
    if fault = some .writeSnap then (s, .error "snapshot write failed")
    else (writeStats s pid snap, .ok ())

/-- Embeds `transactionService.updatePortfolioStats`, the fault-free run. -/
def updatePortfolioStats (s : Store) (pid : String) : Store × Except String Unit :=
  updatePortfolioStatsWith none s pid

/-- Embeds `transactionService.createTransaction`: `setDoc` appends the new
transaction document, then the portfolio stats are recomputed.  A failing
stats update propagates as the operation's error (the inserted transaction
remains, as in the source where the exception is re-thrown after
`setDoc`). -/
def createTransaction (s : Store) (tx : Transaction) : Store × Except String Unit :=
  let s1 : Store := { s with transactions := s.transactions ++ [tx] }
  updatePortfolioStats s1 tx.portfolioId

/-- Partial-field update input (`UpdateTransactionInput`): fields present
in the object overwrite the stored transaction, the rest are kept. -/
structure UpdateTransactionInput where
  type : Option TransactionType := none
  amount : Option ℚ := none
  date : Option Int := none
  notes : Option String := none
  mutualFundDetails : Option MutualFundDetails := none
  stockDetails : Option StockDetails := none
  pvdDetails : Option PvdDetails := none
  cooperativeDetails : Option CooperativeDetails := none
deriving DecidableEq, Repr

/-- The `updateDoc(docRef, {...input})` merge on one transaction. -/
def mergeTransaction (t : Transaction) (u : UpdateTransactionInput) : Transaction :=
  { t with
    type := u.type.getD t.type
    amount := u.amount.getD t.amount
    date := u.date.getD t.date
    notes := u.notes.getD t.notes
    mutualFundDetails := u.mutualFundDetails.orElse (fun _ => t.mutualFundDetails)
    stockDetails := u.stockDetails.orElse (fun _ => t.stockDetails)
    pvdDetails := u.pvdDetails.orElse (fun _ => t.pvdDetails)
    cooperativeDetails := u.cooperativeDetails.orElse (fun _ => t.cooperativeDetails) }

/-- Embeds `transactionService.updateTransaction`: `updateDoc` throws when the
transaction document does not exist (store unchanged); otherwise the
merge is stored and the portfolio stats are recomputed. -/
def updateTransaction (s : Store) (txId pid : String)
    (input : UpdateTransactionInput) : Store × Except String Unit :=
  if s.transactions.any (fun t => t.id == txId) then
    let s1 : Store :=
      { s with
        transactions :=
          s.transactions.map (fun t => if t.id == txId then mergeTransaction t input else t) }
    updatePortfolioStats s1 pid
  else
    (s, .error "No document to update")

/-- Embeds `transactionService.deleteTransaction`: `deleteDoc` removes the
document (a no-op when absent, it does not throw), then the portfolio
stats are recomputed. -/
def deleteTransaction (s : Store) (txId pid : String) : Store × Except String Unit :=
  let s1 : Store :=
    { s with transactions := s.transactions.filter (fun t => !(t.id == txId)) }
  updatePortfolioStats s1 pid

/-- Embeds `portfolioService.updateNav`: write `currentNavPerUnit` on the
portfolio document (`updateDoc` throws when the document is absent). -/
def updateNav (s : Store) (pid : String) (navPerUnit : ℚ) : Store × Except String Unit :=
  if s.portfolios.any (fun p => p.id == pid) then
    ({ s with
        portfolios :=
          s.portfolios.map (fun p =>
            if p.id == pid then { p with currentNavPerUnit := navPerUnit } else p) },
      .ok ())
  else
    (s, .error "No document to update")

/-- Embeds `portfolioService.updateStockPrice`: write `currentStockPriceUSD` and
`currentExchangeRate` on the portfolio document. -/
def updateStockPrice (s : Store) (pid : String) (pricePerUnitUSD exchangeRate : ℚ) :
    Store × Except String Unit :=
  if s.portfolios.any (fun p => p.id == pid) then
    ({ s with
        portfolios :=
          s.portfolios.map (fun p =>
            if p.id == pid then
              { p with
                currentStockPriceUSD := pricePerUnitUSD
                currentExchangeRate := exchangeRate }
            else p) },
      .ok ())
  else
    (s, .error "No document to update")

/-- Embeds `Dashboard.handleNavUpdate`: store the new NAV, then trigger the full
stats recompute; an error in either step propagates. -/
def handleNavUpdate (s : Store) (pid : String) (navPerUnit : ℚ) :
    Store × Except String Unit :=
  match updateNav s pid navPerUnit with
  | (s1, .ok _) => updatePortfolioStats s1 pid
  | (s1, .error e) => (s1, .error e)

/-- Embeds `Dashboard.handleStockPriceUpdate`: store the new price and FX rate,
then trigger the full stats recompute. -/
def handleStockPriceUpdate (s : Store) (pid : String)
    (pricePerUnitUSD exchangeRate : ℚ) : Store × Except String Unit :=
  match updateStockPrice s pid pricePerUnitUSD exchangeRate with
  | (s1, .ok _) => updatePortfolioStats s1 pid
  | (s1, .error e) => (s1, .error e)

/-- The five fields written by the legacy recomputation (it never includes
`totalUnits`, so that field of the document is left untouched). -/
structure LegacySnapshot where
  currentValue : ℚ
  totalInvested : ℚ
  totalReturn : ℚ
  returnPercentage : ℚ
  transactionCount : Nat
deriving DecidableEq, Repr

/-- Compute step of the legacy `updatePortfolioStats` (older
`transaction.ts` without mutual-fund/stock branches): current value always
equals net invested. -/
def computeLegacySnapshot (txs : List Transaction) : LegacySnapshot :=
  let stats := getPortfolioStats txs
  let currentValue := stats.netInvested
  let totalReturn := currentValue - stats.netInvested
  let returnPercentage :=
    if 0 < stats.netInvested then totalReturn / stats.netInvested * 100 else 0
  { currentValue
    totalInvested := stats.netInvested
    totalReturn
    returnPercentage
    transactionCount := stats.transactionCount }

/-- Write-back of the legacy snapshot: only the five listed fields are in
the `updateDoc` payload. -/
def applyLegacySnapshot (p : Portfolio) (snap : LegacySnapshot) : Portfolio :=
  { p with
    currentValue := snap.currentValue
    totalInvested := snap.totalInvested
    totalReturn := snap.totalReturn
    returnPercentage := snap.returnPercentage
    transactionCount := snap.transactionCount }

/-- The store after the legacy snapshot write. -/
def writeLegacyStats (s : Store) (pid : String) (snap : LegacySnapshot) : Store :=
  { s with
    portfolios :=
      s.portfolios.map (fun p => if p.id == pid then applyLegacySnapshot p snap else p) }

/-- Legacy `transactionService.updatePortfolioStats`: no portfolio-type
branching, the write goes through `portfolioService.updatePortfolioStats`
(`updateDoc` throws when the portfolio document is absent). -/
def updatePortfolioStatsLegacy (s : Store) (pid : String) : Store × Except String Unit :=
  let snap := computeLegacySnapshot (ledgerOf s pid)
  if s.portfolios.any (fun p => p.id == pid) then
    (writeLegacyStats s pid snap, .ok ())
  else
    (s, .error "No document to update")

/-- Parsed mutual-fund form fields of `AddTransactionModal`. -/
structure MutualFundForm where
  type : TransactionType
  fundName : String
  installmentNo : Int
  unitsPurchased : ℚ
  pricePerUnit : ℚ
  date : Int
  notes : String
deriving DecidableEq, Repr

/-- Parsed stock form fields of `AddTransactionModal`. -/
structure StockForm where
  type : TransactionType
  stockName : String
  installmentNo : Int
  unitsPurchased : ℚ
  pricePerUnitUSD : ℚ
  exchangeRate : ℚ
  date : Int
  notes : String
deriving DecidableEq, Repr

/-- Emptiness after trimming: the JavaScript falsiness test
`!formData.fundName.trim()` holds exactly when the name consists solely of
whitespace (or is empty). -/
def isBlank (s : String) : Bool :=
  s.toList.all Char.isWhitespace

/-- The `CreateTransactionInput` record as assembled by `handleSubmit`. -/
structure CreateTransactionInput where
  portfolioId : String
  type : TransactionType
  amount : ℚ
  date : Int
  notes : String
  mutualFundDetails : Option MutualFundDetails := none
  stockDetails : Option StockDetails := none
deriving DecidableEq, Repr

/-- Embeds `AddTransactionModal.handleSubmit` for a mutual-fund portfolio:
validate units, price, fund name and installment number, compute
`amount = units * price`, and build the input with the mutual-fund detail
payload.  The JavaScript guards `!units || units <= 0` collapse to
`units ≤ 0` over exact rationals. -/
def buildMutualFundInput (pid : String) (f : MutualFundForm) :
    Except String CreateTransactionInput :=
  if f.unitsPurchased ≤ 0 then .error "Units purchased must be greater than 0"
  else if f.pricePerUnit ≤ 0 then .error "Price per unit must be greater than 0"
  else if isBlank f.fundName then .error "Fund name is required"
  else if f.installmentNo ≤ 0 then .error "Installment number must be greater than 0"
  else
    .ok
      { portfolioId := pid
        type := f.type
        amount := f.unitsPurchased * f.pricePerUnit
        date := f.date
        notes := f.notes
        mutualFundDetails := some
          { fundName := f.fundName
            installmentNo := f.installmentNo
            unitsPurchased := f.unitsPurchased
            pricePerUnit := f.pricePerUnit } }

/-- Embeds `AddTransactionModal.handleSubmit` for a stock portfolio: validate,
compute `amount = units * priceUSD * exchangeRate` (the THB value), and
build the input with the stock detail payload carrying the same
`purchaseValueTHB`. -/
def buildStockInput (pid : String) (f : StockForm) :
    Except String CreateTransactionInput :=
  if f.unitsPurchased ≤ 0 then .error "Units purchased must be greater than 0"
  else if f.pricePerUnitUSD ≤ 0 then .error "Price per unit (USD) must be greater than 0"
  else if f.exchangeRate ≤ 0 then .error "Exchange rate must be greater than 0"
  else if isBlank f.stockName then .error "Stock name is required"
  else if f.installmentNo ≤ 0 then .error "Installment number must be greater than 0"
  else
    .ok
      { portfolioId := pid
        type := f.type
        amount := f.unitsPurchased * f.pricePerUnitUSD * f.exchangeRate
        date := f.date
        notes := f.notes
        stockDetails := some
          { stockName := f.stockName
            installmentNo := f.installmentNo
            unitsPurchased := f.unitsPurchased
            pricePerUnitUSD := f.pricePerUnitUSD
            exchangeRate := f.exchangeRate
            purchaseValueTHB := f.unitsPurchased * f.pricePerUnitUSD * f.exchangeRate } }

/-- The snapshot fields currently stored on a portfolio document. -/
def snapshotOf (p : Portfolio) : Snapshot :=
  { currentValue := p.currentValue
    totalInvested := p.totalInvested
    totalReturn := p.totalReturn
    returnPercentage := p.returnPercentage
    transactionCount := p.transactionCount
    totalUnits := p.totalUnits }

/-- The freshness postcondition: the stored snapshot of the portfolio
equals the engine's pure recomputation over the current ledger and the
current quote fields. -/
def snapshotFresh (s : Store) (pid : String) : Prop :=
  ∀ p, findPortfolio s pid = some p →
    snapshotOf p =
      computeSnapshot p.investmentType p.currentNavPerUnit p.currentStockPriceUSD
        p.currentExchangeRate (ledgerOf s pid)

/-! ### Sample data used by witness instantiations -/

/-- A savings portfolio with a deliberately stale snapshot. -/
def samplePortfolioSavings : Portfolio :=
  { id := "p1", userId := "u1", name := "Savings A"
    investmentType := .savings, targetAmount := 0
    currentValue := 999, totalInvested := 999, totalReturn := 1
    returnPercentage := 1, transactionCount := 9, totalUnits := 3
    currentNavPerUnit := 0, currentStockPriceUSD := 0, currentExchangeRate := 0 }

/-- A plain deposit of 5000 against portfolio p1. -/
def sampleDeposit : Transaction :=
  { id := "t1", userId := "u1", portfolioId := "p1"
    type := .deposit, amount := 5000, date := 1, notes := "" }

/-- A plain withdrawal of 2000 against portfolio p1. -/
def sampleWithdrawal : Transaction :=
  { id := "t2", userId := "u1", portfolioId := "p1"
    type := .withdrawal, amount := 2000, date := 2, notes := "" }

/-- A store with one savings portfolio and one deposit. -/
def sampleStore : Store :=
  { portfolios := [samplePortfolioSavings], transactions := [sampleDeposit] }

/-- A store with no documents at all. -/
def emptyStore : Store :=
  { portfolios := [], transactions := [] }

/-- A withdrawal carrying both unit payloads, driving both unit
accumulators negative. -/
def negUnitsTx : Transaction :=
  { id := "t-neg", userId := "u1", portfolioId := "p1"
    type := .withdrawal, amount := 100, date := 3, notes := ""
    mutualFundDetails := some
      { fundName := "F", installmentNo := 1, unitsPurchased := 5, pricePerUnit := 20 }
    stockDetails := some
      { stockName := "S", installmentNo := 1, unitsPurchased := 5
        pricePerUnitUSD := 10, exchangeRate := 2, purchaseValueTHB := 100 } }

/-- A parsed mutual-fund form for the add-transaction flow. -/
def sampleMfForm : MutualFundForm :=
  { type := .deposit, fundName := "KT", installmentNo := 1
    unitsPurchased := 100, pricePerUnit := 10, date := 0, notes := "" }

/-- A parsed stock form for the add-transaction flow. -/
def sampleStockForm : StockForm :=
  { type := .deposit, stockName := "NV", installmentNo := 1
    unitsPurchased := 10, pricePerUnitUSD := 5, exchangeRate := 3
    date := 0, notes := "" }

/-! ### Statement vocabulary: the sums named by the spec's laws -/

/-- Sum of `amount` over the deposit transactions of a list. -/
def depositAmountSum (l : List Transaction) : ℚ :=
  ((l.filter (fun t => t.type == TransactionType.deposit)).map (fun t => t.amount)).sum

/-- Sum of `amount` over the withdrawal transactions of a list. -/
def withdrawalAmountSum (l : List Transaction) : ℚ :=
  ((l.filter (fun t => t.type == TransactionType.withdrawal)).map (fun t => t.amount)).sum

/-- Units figure carried by a transaction's mutual-fund detail payload;
a transaction lacking the payload contributes zero. -/
def mfUnitsOf (t : Transaction) : ℚ :=
  match t.mutualFundDetails with
  | some d => d.unitsPurchased
  | none => 0

/-- Units figure carried by a transaction's stock detail payload. -/
def stockUnitsOf (t : Transaction) : ℚ :=
  match t.stockDetails with
  | some d => d.unitsPurchased
  | none => 0

/-- Sum of mutual-fund units over deposit transactions. -/
def depositMfUnitsSum (l : List Transaction) : ℚ :=
  ((l.filter (fun t => t.type == TransactionType.deposit)).map mfUnitsOf).sum

/-- Sum of mutual-fund units over withdrawal transactions. -/
def withdrawalMfUnitsSum (l : List Transaction) : ℚ :=
  ((l.filter (fun t => t.type == TransactionType.withdrawal)).map mfUnitsOf).sum

/-- Sum of stock units over deposit transactions. -/
def depositStockUnitsSum (l : List Transaction) : ℚ :=
  ((l.filter (fun t => t.type == TransactionType.deposit)).map stockUnitsOf).sum

/-- Sum of stock units over withdrawal transactions. -/
def withdrawalStockUnitsSum (l : List Transaction) : ℚ :=
  ((l.filter (fun t => t.type == TransactionType.withdrawal)).map stockUnitsOf).sum

/-- Signed mutual-fund unit contribution of one transaction. -/
def mfDelta (t : Transaction) : ℚ :=
  match t.mutualFundDetails with
  | some d =>
    match t.type with
    | .deposit => d.unitsPurchased
    | .withdrawal => -d.unitsPurchased
  | none => 0

/-- Signed stock unit contribution of one transaction. -/
def stockDelta (t : Transaction) : ℚ :=
  match t.stockDetails with
  | some d =>
    match t.type with
    | .deposit => d.unitsPurchased
    | .withdrawal => -d.unitsPurchased
  | none => 0

/-! ### Fold lemmas -/

lemma foldl_statsAccum (l : List Transaction) (a b : ℚ) :
    l.foldl statsAccum (a, b) = (a + depositAmountSum l, b + withdrawalAmountSum l) := by
  induction l generalizing a b with
  | nil => simp [depositAmountSum, withdrawalAmountSum]
  | cons t l ih =>
    cases h : t.type <;>
      simp [statsAccum, h, ih, depositAmountSum, withdrawalAmountSum,
        List.filter_cons, add_assoc, add_comm, add_left_comm]

lemma getPortfolioStats_netInvested (l : List Transaction) :
    (getPortfolioStats l).netInvested = depositAmountSum l - withdrawalAmountSum l := by
  show (l.foldl statsAccum (0, 0)).1 - (l.foldl statsAccum (0, 0)).2 = _
  rw [foldl_statsAccum]
  simp

lemma getPortfolioStats_transactionCount (l : List Transaction) :
    (getPortfolioStats l).transactionCount = l.length := rfl

lemma foldl_mfUnitsAccum (l : List Transaction) (u : ℚ) :
    l.foldl mfUnitsAccum u = u + (l.map mfDelta).sum := by
  induction l generalizing u with
  | nil => simp
  | cons t l ih =>
    cases hd : t.mutualFundDetails <;> cases ht : t.type <;>
      simp [mfUnitsAccum, mfDelta, hd, ht, ih, add_assoc, sub_eq_add_neg]

lemma foldl_stockUnitsAccum (l : List Transaction) (u : ℚ) :
    l.foldl stockUnitsAccum u = u + (l.map stockDelta).sum := by
  induction l generalizing u with
  | nil => simp
  | cons t l ih =>
    cases hd : t.stockDetails <;> cases ht : t.type <;>
      simp [stockUnitsAccum, stockDelta, hd, ht, ih, add_assoc, sub_eq_add_neg]

lemma getMutualFundUnits_eq_sum (l : List Transaction) :
    getMutualFundUnits l = (l.map mfDelta).sum := by
  simp [getMutualFundUnits, foldl_mfUnitsAccum]

lemma getStockUnits_eq_sum (l : List Transaction) :
    getStockUnits l = (l.map stockDelta).sum := by
  simp [getStockUnits, foldl_stockUnitsAccum]

lemma mfDelta_sum_split (l : List Transaction) :
    (l.map mfDelta).sum = depositMfUnitsSum l - withdrawalMfUnitsSum l := by
  induction l with
  | nil => simp [depositMfUnitsSum, withdrawalMfUnitsSum]
  | cons t l ih =>
    cases hd : t.mutualFundDetails <;> cases ht : t.type <;>
      simp [mfDelta, mfUnitsOf, hd, ht, ih, depositMfUnitsSum, withdrawalMfUnitsSum,
        List.filter_cons] <;> ring

lemma stockDelta_sum_split (l : List Transaction) :
    (l.map stockDelta).sum = depositStockUnitsSum l - withdrawalStockUnitsSum l := by
  induction l with
  | nil => simp [depositStockUnitsSum, withdrawalStockUnitsSum]
  | cons t l ih =>
    cases hd : t.stockDetails <;> cases ht : t.type <;>
      simp [stockDelta, stockUnitsOf, hd, ht, ih, depositStockUnitsSum,
        withdrawalStockUnitsSum, List.filter_cons] <;> ring

/-! ### Store-level helper lemmas -/

lemma snapshotOf_applySnapshot (p : Portfolio) (snap : Snapshot) :
    snapshotOf (applySnapshot p snap) = snap := rfl

lemma find?_map_update (l : List Portfolio) (pid : String) (g : Portfolio → Portfolio)
    (hg : ∀ p, (g p).id = p.id) :
    (l.map (fun p => if p.id == pid then g p else p)).find? (fun p => p.id == pid) =
      (l.find? (fun p => p.id == pid)).map g := by
  induction l with
  | nil => rfl
  | cons a l ih =>
    by_cases h : a.id = pid
    · simp [List.find?, h, hg]
    · simp only [List.map_cons]
      rw [if_neg (by simpa using h)]
      rw [List.find?_cons_of_neg _ (by simpa using h), List.find?_cons_of_neg _ (by simpa using h)]
      exact ih

lemma findPortfolio_writeStats (s : Store) (pid : String) (snap : Snapshot) :
    findPortfolio (writeStats s pid snap) pid =
      (findPortfolio s pid).map (fun p => applySnapshot p snap) := by
  unfold findPortfolio writeStats
  exact find?_map_update s.portfolios pid (fun p => applySnapshot p snap) (fun _ => rfl)

lemma ledgerOf_writeStats (s : Store) (pid : String) (snap : Snapshot) (pid' : String) :
    ledgerOf (writeStats s pid snap) pid' = ledgerOf s pid' := rfl

/-- Characterisation of a successful fault-injected recompute run. -/
lemma updatePortfolioStatsWith_ok (fault : Option FaultStep) (s s' : Store) (pid : String)
    (h : updatePortfolioStatsWith fault s pid = (s', Except.ok ())) :
    ∃ p, findPortfolio s pid = some p ∧
      s' = writeStats s pid
        (computeSnapshot p.investmentType p.currentNavPerUnit p.currentStockPriceUSD
          p.currentExchangeRate (ledgerOf s pid)) := by
  unfold updatePortfolioStatsWith at h
  by_cases h1 : fault = some FaultStep.readLedger
  · simp [h1] at h
  rw [if_neg h1] at h
  by_cases h2 : fault = some FaultStep.readPortfolio
  · simp [h2] at h
  rw [if_neg h2] at h
  cases hf : findPortfolio s pid with
  | none => rw [hf] at h; simp at h
  | some p =>
    rw [hf] at h
    by_cases h3 : fault = some FaultStep.writeSnap
    · simp [h3] at h
    · simp only [if_neg h3] at h
      refine ⟨p, rfl, ?_⟩
      have hfst := congrArg Prod.fst h
      exact hfst.symm

/-- A successful fault-free recompute. -/
lemma updatePortfolioStats_ok (s s' : Store) (pid : String)
    (h : updatePortfolioStats s pid = (s', Except.ok ())) :
    ∃ p, findPortfolio s pid = some p ∧
      s' = writeStats s pid
        (computeSnapshot p.investmentType p.currentNavPerUnit p.currentStockPriceUSD
          p.currentExchangeRate (ledgerOf s pid)) :=
  updatePortfolioStatsWith_ok none s s' pid h

/-- A successful recompute establishes freshness of the written snapshot. -/
lemma updatePortfolioStats_fresh (s s' : Store) (pid : String)
    (h : updatePortfolioStats s pid = (s', Except.ok ())) : snapshotFresh s' pid := by
  obtain ⟨p, hf, hs⟩ := updatePortfolioStats_ok s s' pid h
  intro q hq
  subst hs
  rw [findPortfolio_writeStats, hf] at hq
  simp only [Option.map] at hq
  cases hq
  rfl

lemma applySnapshot_id (p : Portfolio) (snap : Snapshot) :
    (applySnapshot p snap).id = p.id := rfl

lemma applySnapshot_investmentType (p : Portfolio) (snap : Snapshot) :
    (applySnapshot p snap).investmentType = p.investmentType := rfl

lemma applySnapshot_currentNavPerUnit (p : Portfolio) (snap : Snapshot) :
    (applySnapshot p snap).currentNavPerUnit = p.currentNavPerUnit := rfl

lemma applySnapshot_currentStockPriceUSD (p : Portfolio) (snap : Snapshot) :
    (applySnapshot p snap).currentStockPriceUSD = p.currentStockPriceUSD := rfl

lemma applySnapshot_currentExchangeRate (p : Portfolio) (snap : Snapshot) :
    (applySnapshot p snap).currentExchangeRate = p.currentExchangeRate := rfl

lemma applySnapshot_applySnapshot (p : Portfolio) (s1 s2 : Snapshot) :
    applySnapshot (applySnapshot p s1) s2 = applySnapshot p s2 := rfl

lemma writeStats_writeStats (s : Store) (pid : String) (snap : Snapshot) :
    writeStats (writeStats s pid snap) pid snap = writeStats s pid snap := by
  unfold writeStats
  simp only [List.map_map]
  congr 1
  refine List.map_congr_left ?_
  intro a _
  by_cases h : a.id = pid
  · simp [Function.comp, h, applySnapshot_applySnapshot]
  · simp [Function.comp, h]

/-- Normal form of a fault-free recompute run. -/
lemma updatePortfolioStats_eq (s : Store) (pid : String) :
    updatePortfolioStats s pid =
      match findPortfolio s pid with
      | none => (s, Except.error "Portfolio not found")
      | some p =>
        (writeStats s pid
          (computeSnapshot p.investmentType p.currentNavPerUnit p.currentStockPriceUSD
            p.currentExchangeRate (ledgerOf s pid)), Except.ok ()) := by
  unfold updatePortfolioStats updatePortfolioStatsWith
  simp

lemma findPortfolio_writeLegacyStats (s : Store) (pid : String) (snap : LegacySnapshot) :
    findPortfolio (writeLegacyStats s pid snap) pid =
      (findPortfolio s pid).map (fun p => applyLegacySnapshot p snap) := by
  unfold findPortfolio writeLegacyStats
  exact find?_map_update s.portfolios pid (fun p => applyLegacySnapshot p snap) (fun _ => rfl)

lemma any_id_of_findPortfolio (s : Store) (pid : String) (p : Portfolio)
    (h : findPortfolio s pid = some p) :
    s.portfolios.any (fun q => q.id == pid) = true := by
  unfold findPortfolio at h
  have hmem : p ∈ s.portfolios := List.mem_of_find?_eq_some h
  have hp : (p.id == pid) = true := List.find?_some (p := fun q : Portfolio => q.id == pid) h
  exact List.any_eq_true.mpr ⟨p, hmem, hp⟩

/-! ### Claim theorems -/

/-- Claim C1: the recomputed currentValue follows the investment-type
branch rule — mutual_fund uses totalUnits × navPerUnit when the NAV quote
is > 0 and falls back to netInvested otherwise; stock uses
totalUnits × stockPriceUSD × exchangeRate when both quote parts are > 0
and falls back to netInvested otherwise; cooperative, pvd and savings
always use netInvested and never read any quote. -/
theorem C1_currentValue_branch_rule :
    (∀ nav priceUSD fx txs,
        (computeSnapshot InvestmentType.mutual_fund nav priceUSD fx txs).currentValue =
          if 0 < nav then getMutualFundUnits txs * nav
          else (getPortfolioStats txs).netInvested) ∧
    (∀ nav priceUSD fx txs,
        (computeSnapshot InvestmentType.stock nav priceUSD fx txs).currentValue =
          if 0 < priceUSD ∧ 0 < fx then getStockUnits txs * priceUSD * fx
          else (getPortfolioStats txs).netInvested) ∧
    (∀ ity,
      ity = InvestmentType.cooperative ∨ ity = InvestmentType.pvd ∨
          ity = InvestmentType.savings →
      ∀ nav priceUSD fx nav' priceUSD' fx' txs,
        (computeSnapshot ity nav priceUSD fx txs).currentValue =
          (getPortfolioStats txs).netInvested ∧
        computeSnapshot ity nav priceUSD fx txs =
          computeSnapshot ity nav' priceUSD' fx' txs) := by
  refine ⟨?_, ?_, ?_⟩
  · intro nav priceUSD fx txs
    by_cases h : 0 < nav
    · simp [computeSnapshot, h, ne_of_gt h]
    · simp [computeSnapshot, h]
  · intro nav priceUSD fx txs
    by_cases hp : 0 < priceUSD <;> by_cases hf : 0 < fx
    · simp [computeSnapshot, hp, hf, ne_of_gt hp, ne_of_gt hf]
    · simp [computeSnapshot, hp, hf]
    · simp [computeSnapshot, hp, hf]
    · simp [computeSnapshot, hp, hf]
  · rintro ity (rfl | rfl | rfl) nav priceUSD fx nav' priceUSD' fx' txs <;>
      exact ⟨rfl, rfl⟩

/-- Claim C1 witness: instantiated at a savings portfolio with quotes
present, currentValue is netInvested and the snapshot ignores quotes. -/
theorem C1_currentValue_branch_rule_witness :
    (computeSnapshot InvestmentType.savings 5 7 2 [sampleDeposit]).currentValue =
      (getPortfolioStats [sampleDeposit]).netInvested ∧
    computeSnapshot InvestmentType.savings 5 7 2 [sampleDeposit] =
      computeSnapshot InvestmentType.savings 0 0 0 [sampleDeposit] :=
  C1_currentValue_branch_rule.2.2 InvestmentType.savings (by decide) 5 7 2 0 0 0
    [sampleDeposit]

/-- Claim C2: after a successful recompute-and-write-back the stored
snapshot is the engine's full six-field output, written wholesale, and it
satisfies totalReturn = currentValue − totalInvested. -/
theorem C2_snapshot_completeness :
    (∀ ity nav priceUSD fx txs,
        (computeSnapshot ity nav priceUSD fx txs).totalReturn =
          (computeSnapshot ity nav priceUSD fx txs).currentValue -
            (computeSnapshot ity nav priceUSD fx txs).totalInvested) ∧
    (∀ s pid s', updatePortfolioStats s pid = (s', Except.ok ()) →
      ∃ p, findPortfolio s pid = some p ∧
        findPortfolio s' pid =
          some (applySnapshot p
            (computeSnapshot p.investmentType p.currentNavPerUnit p.currentStockPriceUSD
              p.currentExchangeRate (ledgerOf s pid))) ∧
        snapshotOf (applySnapshot p
            (computeSnapshot p.investmentType p.currentNavPerUnit p.currentStockPriceUSD
              p.currentExchangeRate (ledgerOf s pid))) =
          computeSnapshot p.investmentType p.currentNavPerUnit p.currentStockPriceUSD
            p.currentExchangeRate (ledgerOf s pid)) := by
  constructor
  · intro ity nav priceUSD fx txs
    rfl
  · intro s pid s' h
    obtain ⟨p, hf, hs⟩ := updatePortfolioStats_ok s s' pid h
    subst hs
    refine ⟨p, hf, ?_, rfl⟩
    rw [findPortfolio_writeStats, hf]
    rfl

/-- Claim C2 witness: the recompute of the sample store succeeds and the
snapshot write is the wholesale replacement. -/
theorem C2_snapshot_completeness_witness :
    ∃ p, findPortfolio sampleStore "p1" = some p ∧
      findPortfolio (updatePortfolioStats sampleStore "p1").1 "p1" =
        some (applySnapshot p
          (computeSnapshot p.investmentType p.currentNavPerUnit p.currentStockPriceUSD
            p.currentExchangeRate (ledgerOf sampleStore "p1"))) ∧
      snapshotOf (applySnapshot p
          (computeSnapshot p.investmentType p.currentNavPerUnit p.currentStockPriceUSD
            p.currentExchangeRate (ledgerOf sampleStore "p1"))) =
        computeSnapshot p.investmentType p.currentNavPerUnit p.currentStockPriceUSD
          p.currentExchangeRate (ledgerOf sampleStore "p1") :=
  C2_snapshot_completeness.2 sampleStore "p1" (updatePortfolioStats sampleStore "p1").1
    (by rfl)

/-- Claim C3: when netInvested ≤ 0 the recomputed returnPercentage is 0;
the division happens only under the guard netInvested > 0. -/
theorem C3_zero_return_guard :
    ∀ ity nav priceUSD fx txs,
      ((getPortfolioStats txs).netInvested ≤ 0 →
        (computeSnapshot ity nav priceUSD fx txs).returnPercentage = 0) ∧
      (0 < (getPortfolioStats txs).netInvested →
        (computeSnapshot ity nav priceUSD fx txs).returnPercentage =
          (computeSnapshot ity nav priceUSD fx txs).totalReturn /
            (getPortfolioStats txs).netInvested * 100) := by
  intro ity nav priceUSD fx txs
  constructor
  · intro h
    have hn : ¬ 0 < (getPortfolioStats txs).netInvested := not_lt.mpr h
    simp only [computeSnapshot]
    rw [if_neg hn]
  · intro h
    simp only [computeSnapshot]
    rw [if_pos h]

/-- Claim C3 witness: a lone withdrawal makes netInvested negative and
the recomputed returnPercentage is 0. -/
theorem C3_zero_return_guard_witness :
    (computeSnapshot InvestmentType.savings 0 0 0 [sampleWithdrawal]).returnPercentage = 0 :=
  (C3_zero_return_guard InvestmentType.savings 0 0 0 [sampleWithdrawal]).1
    (by norm_num [getPortfolioStats, sampleWithdrawal, statsAccum])

/-- Claim C6: recomputed totalInvested is the sum of deposit amounts minus
the sum of withdrawal amounts, transactionCount is the number of
transactions, and the empty ledger yields 0 for both. -/
theorem C6_net_invested_and_count :
    ∀ ity nav priceUSD fx txs,
      (computeSnapshot ity nav priceUSD fx txs).totalInvested =
        depositAmountSum txs - withdrawalAmountSum txs ∧
      (computeSnapshot ity nav priceUSD fx txs).transactionCount = txs.length ∧
      (getPortfolioStats ([] : List Transaction)).netInvested = 0 ∧
      (getPortfolioStats ([] : List Transaction)).transactionCount = 0 := by
  intro ity nav priceUSD fx txs
  refine ⟨?_, rfl, by simp [getPortfolioStats], rfl⟩
  show (getPortfolioStats txs).netInvested = _
  exact getPortfolioStats_netInvested txs

/-- Claim C4: the unit accumulators return the sum of deposit units minus
the sum of withdrawal units, transactions lacking the matching detail
contribute zero (built into the sums), the result is order-independent,
and it may be negative with no clamping. -/
theorem C4_unit_accumulator_sign_law :
    (∀ txs, getMutualFundUnits txs = depositMfUnitsSum txs - withdrawalMfUnitsSum txs) ∧
    (∀ txs, getStockUnits txs = depositStockUnitsSum txs - withdrawalStockUnitsSum txs) ∧
    (∀ txs txs', txs.Perm txs' →
      getMutualFundUnits txs = getMutualFundUnits txs' ∧
      getStockUnits txs = getStockUnits txs') ∧
    (∃ txs, getMutualFundUnits txs < 0 ∧ getStockUnits txs < 0) := by
  refine ⟨?_, ?_, ?_, ?_⟩
  · intro txs
    rw [getMutualFundUnits_eq_sum, mfDelta_sum_split]
  · intro txs
    rw [getStockUnits_eq_sum, stockDelta_sum_split]
  · intro txs txs' h
    constructor
    · rw [getMutualFundUnits_eq_sum, getMutualFundUnits_eq_sum]
      exact List.Perm.sum_eq (h.map mfDelta)
    · rw [getStockUnits_eq_sum, getStockUnits_eq_sum]
      exact List.Perm.sum_eq (h.map stockDelta)
  · refine ⟨[negUnitsTx], ?_, ?_⟩ <;>
      norm_num [getMutualFundUnits, getStockUnits, mfUnitsAccum, stockUnitsAccum, negUnitsTx]

/-- Claim C4 witness: the accumulators agree on a concrete two-element
ledger and its transposition. -/
theorem C4_unit_accumulator_sign_law_witness :
    getMutualFundUnits [negUnitsTx, sampleDeposit] =
      getMutualFundUnits [sampleDeposit, negUnitsTx] ∧
    getStockUnits [negUnitsTx, sampleDeposit] =
      getStockUnits [sampleDeposit, negUnitsTx] :=
  C4_unit_accumulator_sign_law.2.2.1 [negUnitsTx, sampleDeposit]
    [sampleDeposit, negUnitsTx] (List.Perm.swap sampleDeposit negUnitsTx [])

/-- Claim C7: recompute is idempotent — a second recompute with the same
ledger and quote returns the same store (hence an identical snapshot). -/
theorem C7_recompute_idempotent :
    ∀ s pid s', updatePortfolioStats s pid = (s', Except.ok ()) →
      updatePortfolioStats s' pid = (s', Except.ok ()) := by
  intro s pid s' h
  obtain ⟨p, hf, hs⟩ := updatePortfolioStats_ok s s' pid h
  subst hs
  rw [updatePortfolioStats_eq]
  rw [findPortfolio_writeStats, hf]
  simp only [Option.map, applySnapshot_investmentType, applySnapshot_currentNavPerUnit,
    applySnapshot_currentStockPriceUSD, applySnapshot_currentExchangeRate,
    ledgerOf_writeStats]
  rw [writeStats_writeStats]

/-- Claim C7 witness: idempotence at the concrete sample store. -/
theorem C7_recompute_idempotent_witness :
    updatePortfolioStats (updatePortfolioStats sampleStore "p1").1 "p1" =
      ((updatePortfolioStats sampleStore "p1").1, Except.ok ()) :=
  C7_recompute_idempotent sampleStore "p1" (updatePortfolioStats sampleStore "p1").1
    (by rfl)

/-- Claim C8: any error exit of the recompute (missing portfolio or a
persistence fault at any step of the read-compute-write sequence) leaves
the store untouched; a successful run performs the full sequence and the
single wholesale snapshot write. -/
theorem C8_recompute_atomicity :
    (∀ fault s pid e, (updatePortfolioStatsWith fault s pid).2 = Except.error e →
      (updatePortfolioStatsWith fault s pid).1 = s) ∧
    (∀ s pid, findPortfolio s pid = none →
      updatePortfolioStats s pid = (s, Except.error "Portfolio not found")) ∧
    (∀ fault s pid s', updatePortfolioStatsWith fault s pid = (s', Except.ok ()) →
      ∃ p, findPortfolio s pid = some p ∧
        s' = writeStats s pid
          (computeSnapshot p.investmentType p.currentNavPerUnit p.currentStockPriceUSD
            p.currentExchangeRate (ledgerOf s pid))) := by
  refine ⟨?_, ?_, ?_⟩
  · intro fault s pid e h
    by_cases h1 : fault = some FaultStep.readLedger
    · simp [updatePortfolioStatsWith, h1]
    by_cases h2 : fault = some FaultStep.readPortfolio
    · simp [updatePortfolioStatsWith, h1, h2]
    cases hf : findPortfolio s pid with
    | none => simp [updatePortfolioStatsWith, h1, h2, hf]
    | some p =>
      by_cases h3 : fault = some FaultStep.writeSnap
      · simp [updatePortfolioStatsWith, h1, h2, hf, h3]
      · exfalso
        simp [updatePortfolioStatsWith, h1, h2, hf, h3] at h
  · intro s pid hf
    rw [updatePortfolioStats_eq, hf]
  · intro fault s pid s' h
    exact updatePortfolioStatsWith_ok fault s s' pid h

/-- Claim C8 witness: recompute against a missing portfolio id surfaces
the not-found error and returns the store unchanged. -/
theorem C8_recompute_atomicity_witness :
    updatePortfolioStats emptyStore "nope" =
      (emptyStore, Except.error "Portfolio not found") :=
  C8_recompute_atomicity.2.1 emptyStore "nope" rfl

/-- Claim C5: every mutating operation — transaction create, update,
delete, NAV update and stock-price update — that returns success has, as
part of the same synchronous sequence, recomputed and written the owning
portfolio's snapshot from the full current ledger and the current quote,
so the post-state snapshot is fresh. -/
theorem C5_recalculation_trigger :
    (∀ s tx s', createTransaction s tx = (s', Except.ok ()) →
      snapshotFresh s' tx.portfolioId) ∧
    (∀ s txId pid input s', updateTransaction s txId pid input = (s', Except.ok ()) →
      snapshotFresh s' pid) ∧
    (∀ s txId pid s', deleteTransaction s txId pid = (s', Except.ok ()) →
      snapshotFresh s' pid) ∧
    (∀ s pid nav s', handleNavUpdate s pid nav = (s', Except.ok ()) →
      snapshotFresh s' pid) ∧
    (∀ s pid priceUSD fx s',
      handleStockPriceUpdate s pid priceUSD fx = (s', Except.ok ()) →
      snapshotFresh s' pid) := by
  refine ⟨?_, ?_, ?_, ?_, ?_⟩
  · intro s tx s' h
    exact updatePortfolioStats_fresh _ s' _ h
  · intro s txId pid input s' h
    unfold updateTransaction at h
    by_cases hc : s.transactions.any (fun t => t.id == txId)
    · rw [if_pos hc] at h
      exact updatePortfolioStats_fresh _ s' _ h
    · rw [if_neg hc] at h
      exact absurd (congrArg Prod.snd h) (by simp)
  · intro s txId pid s' h
    exact updatePortfolioStats_fresh _ s' _ h
  · intro s pid nav s' h
    unfold handleNavUpdate at h
    cases hr : updateNav s pid nav with
    | mk s1 r =>
      rw [hr] at h
      cases r with
      | ok u => exact updatePortfolioStats_fresh s1 s' pid h
      | error e => exact absurd (congrArg Prod.snd h) (by simp)
  · intro s pid priceUSD fx s' h
    unfold handleStockPriceUpdate at h
    cases hr : updateStockPrice s pid priceUSD fx with
    | mk s1 r =>
      rw [hr] at h
      cases r with
      | ok u => exact updatePortfolioStats_fresh s1 s' pid h
      | error e => exact absurd (congrArg Prod.snd h) (by simp)

/-- Claim C5 witness: creating a withdrawal in the sample store succeeds
and leaves the snapshot freshly recomputed. -/
theorem C5_recalculation_trigger_witness :
    snapshotFresh (createTransaction sampleStore sampleWithdrawal).1
      sampleWithdrawal.portfolioId :=
  C5_recalculation_trigger.1 sampleStore sampleWithdrawal
    (createTransaction sampleStore sampleWithdrawal).1 (by rfl)

/-- Claim C9: every transaction input built by the add-transaction flow
satisfies the detail identities — mutual fund: amount equals
unitsPurchased × pricePerUnit; stock: purchaseValueTHB equals
unitsPurchased × pricePerUnitUSD × exchangeRate and the stored amount is
that THB value. -/
theorem C9_detail_identities :
    (∀ pid f inp, buildMutualFundInput pid f = Except.ok inp →
      ∃ d, inp.mutualFundDetails = some d ∧
        inp.amount = d.unitsPurchased * d.pricePerUnit) ∧
    (∀ pid f inp, buildStockInput pid f = Except.ok inp →
      ∃ d, inp.stockDetails = some d ∧
        d.purchaseValueTHB = d.unitsPurchased * d.pricePerUnitUSD * d.exchangeRate ∧
        inp.amount = d.purchaseValueTHB) := by
  constructor
  · intro pid f inp h
    unfold buildMutualFundInput at h
    split_ifs at h
    cases h
    exact ⟨_, rfl, rfl⟩
  · intro pid f inp h
    unfold buildStockInput at h
    split_ifs at h
    cases h
    exact ⟨_, rfl, rfl, rfl⟩

/-- Claim C9 witness: concrete mutual-fund and stock forms build inputs
satisfying the identities. -/
theorem C9_detail_identities_witness :
    (∃ d, (CreateTransactionInput.mk "p1" TransactionType.deposit 1000 0 ""
        (some (MutualFundDetails.mk "KT" 1 100 10)) none).mutualFundDetails = some d ∧
      (CreateTransactionInput.mk "p1" TransactionType.deposit 1000 0 ""
        (some (MutualFundDetails.mk "KT" 1 100 10)) none).amount =
        d.unitsPurchased * d.pricePerUnit) ∧
    (∃ d, (CreateTransactionInput.mk "p1" TransactionType.deposit 150 0 "" none
        (some (StockDetails.mk "NV" 1 10 5 3 150))).stockDetails = some d ∧
      d.purchaseValueTHB = d.unitsPurchased * d.pricePerUnitUSD * d.exchangeRate ∧
      (CreateTransactionInput.mk "p1" TransactionType.deposit 150 0 "" none
        (some (StockDetails.mk "NV" 1 10 5 3 150))).amount = d.purchaseValueTHB) :=
  ⟨C9_detail_identities.1 "p1" sampleMfForm _
      (by norm_num [buildMutualFundInput, sampleMfForm,
        show isBlank "KT" = false from by decide]),
   C9_detail_identities.2 "p1" sampleStockForm _
      (by norm_num [buildStockInput, sampleStockForm,
        show isBlank "NV" = false from by decide])⟩

/-- Claim C10: for a portfolio whose investment type is neither
mutual_fund nor stock, the legacy recomputation and the current engine
both succeed and write equal values for currentValue, totalInvested,
totalReturn, returnPercentage and transactionCount. -/
theorem C10_legacy_engine_equivalence :
    ∀ s pid p, findPortfolio s pid = some p →
      p.investmentType ≠ InvestmentType.mutual_fund →
      p.investmentType ≠ InvestmentType.stock →
      ∃ sc sl,
        updatePortfolioStats s pid = (sc, Except.ok ()) ∧
        updatePortfolioStatsLegacy s pid = (sl, Except.ok ()) ∧
        ∀ qc ql, findPortfolio sc pid = some qc → findPortfolio sl pid = some ql →
          qc.currentValue = ql.currentValue ∧
          qc.totalInvested = ql.totalInvested ∧
          qc.totalReturn = ql.totalReturn ∧
          qc.returnPercentage = ql.returnPercentage ∧
          qc.transactionCount = ql.transactionCount := by
  intro s pid p hf hmf hst
  have hany := any_id_of_findPortfolio s pid p hf
  refine ⟨writeStats s pid
      (computeSnapshot p.investmentType p.currentNavPerUnit p.currentStockPriceUSD
        p.currentExchangeRate (ledgerOf s pid)),
    writeLegacyStats s pid (computeLegacySnapshot (ledgerOf s pid)), ?_, ?_, ?_⟩
  · rw [updatePortfolioStats_eq, hf]
  · unfold updatePortfolioStatsLegacy
    rw [if_pos hany]
  · intro qc ql hqc hql
    rw [findPortfolio_writeStats, hf] at hqc
    rw [findPortfolio_writeLegacyStats, hf] at hql
    simp only [Option.map] at hqc hql
    cases hqc
    cases hql
    cases hty : p.investmentType with
    | mutual_fund => exact absurd hty hmf
    | stock => exact absurd hty hst
    | cooperative => exact ⟨rfl, rfl, rfl, rfl, rfl⟩
    | pvd => exact ⟨rfl, rfl, rfl, rfl, rfl⟩
    | savings => exact ⟨rfl, rfl, rfl, rfl, rfl⟩

/-- Claim C10 witness: at the sample savings portfolio, both
recomputations succeed and agree on the five legacy fields. -/
theorem C10_legacy_engine_equivalence_witness :
    ∃ sc sl,
      updatePortfolioStats sampleStore "p1" = (sc, Except.ok ()) ∧
      updatePortfolioStatsLegacy sampleStore "p1" = (sl, Except.ok ()) ∧
      ∀ qc ql, findPortfolio sc "p1" = some qc → findPortfolio sl "p1" = some ql →
        qc.currentValue = ql.currentValue ∧
        qc.totalInvested = ql.totalInvested ∧
        qc.totalReturn = ql.totalReturn ∧
        qc.returnPercentage = ql.returnPercentage ∧
        qc.transactionCount = ql.transactionCount :=
  C10_legacy_engine_equivalence sampleStore "p1" samplePortfolioSavings (by rfl)
    (by decide) (by decide)

end PortfolioApp
